import Mathlib

/-!
# Verification of the rbtools diff/patch subsystem

A shallow embedding, in Lean 4, of the revision-control abstraction and
diff/patch subsystem of rbtools (the `BaseSCMClient` contract in
`rbtools/clients/base/scmclient.py`, together with the Perforce behaviors
pinned down by `rbtools/clients/tests/test_p4.py`).

Pure helpers of the Python source are translated into Lean functions;
the stateful client lifecycle is explicit state passing on a `ClientState`
record; external effects (the `patch` subprocess, file reads, logging) are
explicit inputs and outputs of the embedded functions.
-/

namespace RBTools

/-! ## Python string primitives

`String.startsWith` in Python tests whether one string is a character
prefix of another; we embed it over the character lists underlying Lean
strings so that every definition evaluates inside the kernel. -/

/-- Embeds Python `s.startswith(pre)`. -/
def pyStartsWith (s pre : String) : Bool :=
  pre.data.isPrefixOf s.data

/-- The number of occurrences of the character `/` in a string.
Embeds Python `s.count('/')` for a one-character needle. -/
def countSlashes (s : String) : Nat :=
  (s.data.filter (fun c => c = '/')).length

/-- Split a character list on `/`, keeping empty pieces, returning the first
segment and the list of remaining segments. This mirrors Python
`s.split('/')` (whose result always has `s.count('/') + 1` entries). -/
def splitSegsP : List Char → List Char × List (List Char)
  | [] => ([], [])
  | c :: cs =>
    let r := splitSegsP cs
    if c = '/' then ([], r.1 :: r.2) else (c :: r.1, r.2)

/-- The number of `/`-separated segments of a string, as Python
`len(s.split('/'))` counts them (empty segments included). -/
def numSegments (s : String) : Nat :=
  1 + (splitSegsP s.data).2.length

/-! ## Strip-count derivation: `BaseSCMClient._get_p_number` -/

/-- Embeds `BaseSCMClient._get_p_number(base_path, base_dir)`:

```python
if base_path and base_dir.startswith(base_path):
    return base_path.count('/') + 1
else:
    return -1
```

Python truthiness of `base_path` is emptiness of the string. -/
def get_p_number (base_path base_dir : String) : Int :=
  if base_path ≠ "" ∧ pyStartsWith base_dir base_path then
    (countSlashes base_path : Int) + 1
  else
    -1

/-! ## Prefix stripping: `BaseSCMClient._strip_p_num_slashes` -/

/-- Drop the leading run of non-`/` characters (the greedy `[^/]*` part of
the pattern), stopping at the first `/`. -/
def dropSeg : List Char → List Char
  | [] => []
  | c :: cs => if c = '/' then c :: cs else dropSeg cs

/-- Drop the leading run of `/` characters (the greedy `/+` part). -/
def dropSlashes : List Char → List Char
  | [] => []
  | c :: cs => if c = '/' then dropSlashes cs else c :: cs

/-- Remove the leading run of non-`/` characters together with the maximal
run of `/` characters that follows it, when the list contains a `/`;
otherwise leave the list unchanged (the regex has no match then).

This is one substitution step of Python `re.sub(r'[^/]*/+', '', f, n)`:
whenever the string still contains a slash, the leftmost match of
`[^/]*/+` starts at the scan position (since `[^/]*` may be empty) and
greedily covers everything up to and including the first maximal slash
run, and scanning resumes immediately after it. -/
def stripOnce (l : List Char) : List Char :=
  if l.contains '/' then dropSlashes (dropSeg l) else l

/-- Embeds `regex.sub('', f, p_num)` for `regex = re.compile(r'[^/]*/+')`:
perform at most `n` substitution steps (a step on a slash-free string,
where the regex no longer matches, leaves it unchanged). -/
def reSubStrip : Nat → List Char → List Char
  | 0, l => l
  | n + 1, l => reSubStrip n (stripOnce l)

/-- Embeds `BaseSCMClient._strip_p_num_slashes(files, p_num)`:

```python
if p_num > 0:
    regex = re.compile(r'[^/]*/+')
    return [regex.sub('', f, p_num) for f in files]
else:
    return files
```
-/
def strip_p_num_slashes (files : List String) (p_num : Int) : List String :=
  if p_num > 0 then
    files.map (fun f => String.mk (reSubStrip p_num.toNat f.data))
  else
    files

/-- Auxiliary counter for `slashRuns`; the Boolean records whether the
previous character was a `/`. -/
def slashRunsB : Bool → List Char → Nat
  | _, [] => 0
  | prev, c :: cs =>
    if c = '/' then
      (if prev then slashRunsB true cs else slashRunsB true cs + 1)
    else
      slashRunsB false cs

/-- The number of maximal runs of adjacent `/` characters in a list: the
number of leading path segments that prefix stripping can still remove,
counting any run of adjacent slashes as a single separator. -/
def slashRuns (l : List Char) : Nat :=
  slashRunsB false l

/-! ## Python dynamic values and `int()` conversion

`apply_patch`'s `p` argument is documented as a string but flows through
dynamically-typed code (`p or ...` then `int(p_num)`), so both strings
and integers can reach it; we model the two kinds that occur. -/

/-- A dynamically-typed Python value reaching the `p` argument. -/
inductive PyVal where
  | int (n : Int)
  | str (s : String)
deriving DecidableEq, Repr

/-- Python truthiness: `0` and `''` are falsy, everything else truthy. -/
def PyVal.truthy : PyVal → Bool
  | .int n => n ≠ 0
  | .str s => s ≠ ""

/-- Drop leading whitespace characters. -/
def dropSpacesL : List Char → List Char
  | [] => []
  | c :: cs => if c.isWhitespace then dropSpacesL cs else c :: cs

/-- Strip whitespace from both ends of a character list (the stripping
Python `int(str)` performs before parsing). -/
def trimChars (l : List Char) : List Char :=
  ((dropSpacesL ((dropSpacesL l).reverse)).reverse)

/-- Accumulating digit parser allowing single underscores between digits,
as Python's integer literals do. -/
def parseDigitsCore : List Char → Nat → Option Nat
  | [], acc => some acc
  | '_' :: c :: cs, acc =>
    if c.isDigit then parseDigitsCore cs (acc * 10 + (c.toNat - 48)) else none
  | ['_'], _ => none
  | c :: cs, acc =>
    if c.isDigit then parseDigitsCore cs (acc * 10 + (c.toNat - 48)) else none

/-- Parse a non-empty ASCII digit sequence (single underscores allowed
between digits) to a natural number. -/
def parseNatDigits : List Char → Option Nat
  | [] => none
  | '_' :: _ => none
  | c :: cs => if c.isDigit then parseDigitsCore cs (c.toNat - 48) else none

/-- Embeds Python `int(s)` for a string argument: strip surrounding
whitespace, allow one optional sign, then a digit sequence; anything else
raises `ValueError`, modelled as `none`. (Python additionally accepts
non-ASCII decimal digits and a wider whitespace class; no input in this
development exercises those.) -/
def pyIntOfStr (s : String) : Option Int :=
  match trimChars s.data with
  | '-' :: ds => (parseNatDigits ds).map (fun n => -(n : Int))
  | '+' :: ds => (parseNatDigits ds).map (fun n => (n : Int))
  | ds => (parseNatDigits ds).map (fun n => (n : Int))

/-- Embeds Python `int(v)` on a dynamic value: the identity on integers,
string parsing on strings; `none` models a raised `ValueError`. -/
def pyInt : PyVal → Option Int
  | .int n => some n
  | .str s => pyIntOfStr s

/-! ## Patch application: `BaseSCMClient.apply_patch`

The `patch` subprocess, the re-read of the patch file, and the
`apply_patch_for_empty_files` backend hook are external effects; they
enter the embedding as an explicit environment of observed results, and
logging calls leave it as Boolean fields of the returned trace. -/

/-- The exact benign message the source compares against:
`'patch: **** Only garbage was found in the patch input.\n'`. -/
def only_garbage_in_patch : String :=
  "patch: **** Only garbage was found in the patch input.\n"

/-- Observed results of the external effects during one `apply_patch`
call: the exit code and combined output of the `patch` subprocess (as
returned by `execute(cmd, extra_ignore_errors=(2,),
return_error_code=True)`), the `supports_empty_files()` capability, the
re-read patch-file content (`none` models an `IOError`), and the result
of `apply_patch_for_empty_files`. -/
structure ApplyEnv where
  rc : Int
  patch_output : String
  supports_empty_files : Bool
  patch_file_content : Option String
  patched_empty_files : Bool
deriving DecidableEq, Repr

/-- What an `apply_patch` call ends with: a raised
`SCMError('Failed to execute command: %s\n%s' % (cmd, patch_output))`
carrying the command and the full output, a bare Python `return`
(yielding `None`), or a
`PatchResult(applied=(rc == 0), patch_output=patch_output)`. -/
inductive ApplyOutcome where
  | scmError (cmd : List String) (output : String)
  | noneReturn
  | patchResult (applied : Bool) (patch_output : String)
deriving DecidableEq, Repr

/-- The observable behavior of one `apply_patch` call: its outcome, the
command it built, and which log messages it emitted
(`'Invalid -p value: ...'`, `'Unsupported -p value: ...'`,
`'Unable to read file ...'`). -/
structure ApplyTrace where
  outcome : ApplyOutcome
  cmd : List String
  invalid_p_warning : Bool
  unsupported_p_warning : Bool
  read_error_logged : Bool
deriving DecidableEq, Repr

/-- Embeds the strip-count portion of `apply_patch`:

```python
p_num = p or self._get_p_number(base_path, base_dir)
...
try:
    p_num = int(p_num)
except ValueError:
    p_num = 0
    logging.warning('Invalid -p value: %s; assuming zero.', p_num)
```

Returns the resulting integer together with whether the `ValueError`
branch (the invalid-value warning) was taken. -/
def patchPNum (base_path base_dir : String) (p : Option PyVal) : Int × Bool :=
  let p0 : PyVal :=
    match p with
    | some v => if v.truthy then v else .int (get_p_number base_path base_dir)
    | none => .int (get_p_number base_path base_dir)
  match pyInt p0 with
  | some n => (n, false)
  | none => (0, true)

/-- Embeds the command construction of `apply_patch`:

```python
cmd = ['patch']
if revert:
    cmd.append('-R')
... (p_num conversion) ...
if p_num is not None:        # always true: p_num is an int here
    if p_num >= 0:
        cmd.append('-p%d' % p_num)
    else:
        logging.warning('Unsupported -p value: %d; assuming zero.', p_num)
cmd.extend(['-i', six.text_type(patch_file)])
```

Returns the command, the invalid-value warning flag, and the
unsupported-value warning flag. -/
def patchCmd (patch_file base_path base_dir : String) (p : Option PyVal)
    (revert : Bool) : List String × Bool × Bool :=
  let pn := patchPNum base_path base_dir p
  let cmd0 : List String := ["patch"] ++ (if revert then ["-R"] else [])
  if pn.1 ≥ 0 then
    (cmd0 ++ ["-p" ++ toString pn.1] ++ ["-i", patch_file], pn.2, false)
  else
    (cmd0 ++ ["-i", patch_file], pn.2, true)

/-- Embeds `BaseSCMClient.apply_patch(patch_file, base_path, base_dir, p,
revert)` (`rbtools/clients/base/scmclient.py`), given the observed
results of its external effects:

```python
rc, patch_output = execute(cmd, extra_ignore_errors=(2,),
                           return_error_code=True)
only_garbage_in_patch = ('patch: **** Only garbage was found in the '
                         'patch input.\n')
if (patch_output and patch_output.startswith('patch: **** ') and
    patch_output != only_garbage_in_patch):
    raise SCMError(...)
if self.supports_empty_files():
    try:
        with open(patch_file, 'rb') as f:
            patch = f.read()
    except IOError as e:
        logging.error('Unable to read file %s: %s', patch_file, e)
        return
    patched_empty_files = self.apply_patch_for_empty_files(
        patch, p_num, revert=revert)
    if (patch_output == only_garbage_in_patch and
        not patched_empty_files):
        raise SCMError(...)
return PatchResult(applied=(rc == 0), patch_output=patch_output)
```
-/
def apply_patch (env : ApplyEnv) (patch_file base_path base_dir : String)
    (p : Option PyVal) (revert : Bool) : ApplyTrace :=
  let pc := patchCmd patch_file base_path base_dir p revert
  let cmd := pc.1
  let out := env.patch_output
  if out ≠ "" ∧ pyStartsWith out "patch: **** " ∧ out ≠ only_garbage_in_patch
  then
    { outcome := .scmError cmd out, cmd := cmd, invalid_p_warning := pc.2.1,
      unsupported_p_warning := pc.2.2, read_error_logged := false }
  else if env.supports_empty_files then
    match env.patch_file_content with
    | none =>
      { outcome := .noneReturn, cmd := cmd, invalid_p_warning := pc.2.1,
        unsupported_p_warning := pc.2.2, read_error_logged := true }
    | some _ =>
      if out = only_garbage_in_patch ∧ env.patched_empty_files = false then
        { outcome := .scmError cmd out, cmd := cmd,
          invalid_p_warning := pc.2.1, unsupported_p_warning := pc.2.2,
          read_error_logged := false }
      else
        { outcome := .patchResult (env.rc = 0) out, cmd := cmd,
          invalid_p_warning := pc.2.1, unsupported_p_warning := pc.2.2,
          read_error_logged := false }
  else
    { outcome := .patchResult (env.rc = 0) out, cmd := cmd,
      invalid_p_warning := pc.2.1, unsupported_p_warning := pc.2.2,
      read_error_logged := false }

/-! ## Client lifecycle: `BaseSCMClient.setup` / `has_dependencies`

`check_dependencies` is overridden per backend; whether it raises
`SCMClientDependencyError` on a given call is the Boolean input
`depsOk`. -/

/-- The lifecycle-relevant state of a `BaseSCMClient`: the public
`is_setup` flag and the private `_has_deps` cache
(`None`/`True`/`False`). -/
structure ClientState where
  is_setup : Bool
  has_deps : Option Bool
deriving DecidableEq, Repr

/-- The initial state established by `BaseSCMClient.__init__`:
`is_setup = False`, `_has_deps = None`. -/
def initialClientState : ClientState :=
  { is_setup := false, has_deps := none }

/-- Result of one `setup()` call: the new state, whether
`SCMClientDependencyError` propagated out, and whether
`check_dependencies()` was invoked. -/
structure SetupStep where
  state : ClientState
  raised : Bool
  checked : Bool
deriving DecidableEq, Repr

/-- Embeds `BaseSCMClient.setup()`:

```python
if self.is_setup:
    return
try:
    self.check_dependencies()
    self._has_deps = True
except SCMClientDependencyError:
    self._has_deps = False
    raise
self.is_setup = True
```

`depsOk` is whether `check_dependencies()` succeeds on this call. -/
def setup (depsOk : Bool) (s : ClientState) : SetupStep :=
  if s.is_setup then
    { state := s, raised := false, checked := false }
  else if depsOk then
    { state := { is_setup := true, has_deps := some true }, raised := false,
      checked := true }
  else
    { state := { s with has_deps := some false }, raised := true,
      checked := true }

/-- Result of one `has_dependencies()` call: the new state, the returned
value (`none` models `cast(bool, None)` on an unreachable inconsistent
state), whether `check_dependencies()` was invoked, and whether the
deprecation warning fired. -/
structure DepsCheckStep where
  state : ClientState
  result : Option Bool
  checked : Bool
  warned : Bool
deriving DecidableEq, Repr

/-- Embeds `BaseSCMClient.has_dependencies(expect_checked)`:

```python
if self._has_deps is None:
    if expect_checked:
        RemovedInRBTools50Warning.warn(...)
    try:
        self.setup()
    except SCMClientDependencyError:
        pass
return cast(bool, self._has_deps)
```
-/
def has_dependencies (depsOk : Bool) (expect_checked : Bool)
    (s : ClientState) : DepsCheckStep :=
  match s.has_deps with
  | some b =>
    { state := s, result := some b, checked := false, warned := false }
  | none =>
    let st := setup depsOk s
    { state := st.state, result := st.state.has_deps, checked := st.checked,
      warned := expect_checked }

/-! ## Perforce revision resolution (two-token case)

`PerforceClient.parse_revision_spec` lives in
`rbtools/clients/perforce.py`, which is not part of the source excerpt;
only its tests (`rbtools/clients/tests/test_p4.py`,
`test_parse_revision_spec_two_args`) are. The two-token branch is
therefore modelled from the spec. -/

/-- The status a changelist resolves to on the backend. -/
inductive ChangeStatus where
  | submitted
  | pending
  | shelved
deriving DecidableEq, Repr

/-- Errors raised by revision resolution. -/
inductive RevSpecError where
  | invalidRevisionSpec
  | tooManyRevisions
deriving DecidableEq, Repr

/-- The canonical revision range returned by resolution. -/
structure RevRange where
  base : String
  tip : String
deriving DecidableEq, Repr

/-- Parse a changelist token as a plain decimal number (`none` for a
token that is not a number, such as `'aoeu'` in the tests). -/
def changelistNum (s : String) : Option Nat :=
  if s ≠ "" ∧ s.data.all (fun c => c.isDigit) then
    some (s.data.foldl (fun acc c => acc * 10 + (c.toNat - 48)) 0)
  else
    none

/-- Modelled from the spec: the two-token branch of
`PerforceClient.parse_revision_spec` (the implementation in
`rbtools/clients/perforce.py` is missing from the excerpt; only
`test_parse_revision_spec_two_args` is present). Per the spec, "both must
resolve to *submitted* (finalized) revisions, and the first must be
numerically/chronologically ≤ the second; any mismatch (one pending or
shelved, or out of order) raises an `InvalidRevisionSpec` error", and an
unresolvable token also raises `InvalidRevisionSpec`.

`changeStatus` is the read-only backend query resolving a token to the
status of the named changelist (`none` when the backend reports no
matching revision). -/
def parseTwoRevisions (changeStatus : String → Option ChangeStatus)
    (r1 r2 : String) : Except RevSpecError RevRange :=
  match changeStatus r1, changeStatus r2 with
  | some .submitted, some .submitted =>
    match changelistNum r1, changelistNum r2 with
    | some n1, some n2 =>
      if n1 ≤ n2 then
        .ok { base := r1, tip := r2 }
      else
        .error .invalidRevisionSpec
    | _, _ => .error .invalidRevisionSpec
  | _, _ => .error .invalidRevisionSpec

/-! ## Perforce diff synthesis for moved files

`PerforceClient._compute_range_changes` / diff generation also live in
`rbtools/clients/perforce.py`, outside the excerpt; the move-handling
step is modelled from the spec and from the expected diffs of
`test_diff_with_moved_files_cap_on` / `_cap_off`. -/

/-- The per-file action of a changed-file record (Perforce reports
`move/add` and `move/delete` for the two sides of a rename). -/
inductive P4Action where
  | add
  | edit
  | delete
  | move_add
  | move_delete
deriving DecidableEq, Repr

/-- One changed-file record of a changeset: the depot path, the file
content at the record's revision, and the action. -/
structure FileRecord where
  depotFile : String
  text : String
  action : P4Action
deriving DecidableEq, Repr

/-- One per-file fragment of a synthesized diff. `movedFile` is the
combined fragment for a detected rename and renders with the explicit
`Moved from: <src>` / `Moved to: <dst>` header lines of the expected
diff in `test_diff_with_moved_files_cap_on`; the other constructors
render as plain `---`/`+++` fragments with no move markers, as in
`test_diff_with_moved_files_cap_off`. -/
inductive DiffFragment where
  | movedFile (src dst : String) (oldText newText : String)
  | fileAdded (path : String) (newText : String)
  | fileDeleted (path : String) (oldText : String)
  | fileEdited (path : String) (oldText newText : String)
deriving DecidableEq, Repr

/-- Modelled from the spec: the per-record fragment synthesis of
`PerforceClient.diff` (the implementation in
`rbtools/clients/perforce.py` is missing from the excerpt). Per the spec,
"when `move_detection_enabled` and two records for the same
changeset/logical rename form a `move_delete`/`move_add` pair (determined
via filesystem-location metadata matching a source path to a destination
path), emit one combined diff hunk set annotated with explicit
'moved from'/'moved to' markers, instead of two independent add/delete
diffs. When disabled, each side is treated as an independent add or
delete."

`movedFile` is the filesystem-location metadata query (Perforce `fstat`'s
`movedFile` field) mapping a `move/delete` source path to its
destination path. Fragments are emitted in the iteration order of
`records`, as the tests assume. -/
def synthesizeChangeDiffs (moveCap : Bool)
    (movedFile : String → Option String) (records : List FileRecord) :
    List DiffFragment :=
  if moveCap then
    records.filterMap (fun r =>
      match r.action with
      | .move_delete =>
        match movedFile r.depotFile with
        | some dst =>
          match records.find?
              (fun r2 => decide (r2.depotFile = dst ∧ r2.action = .move_add))
          with
          | some r2 => some (.movedFile r.depotFile dst r.text r2.text)
          | none => some (.fileDeleted r.depotFile r.text)
        | none => some (.fileDeleted r.depotFile r.text)
      | .move_add =>
        if records.any (fun r2 => decide (r2.action = .move_delete ∧
            movedFile r2.depotFile = some r.depotFile)) then
          none
        else
          some (.fileAdded r.depotFile r.text)
      | .add => some (.fileAdded r.depotFile r.text)
      | .delete => some (.fileDeleted r.depotFile r.text)
      | .edit => some (.fileEdited r.depotFile r.text r.text))
  else
    records.filterMap (fun r =>
      match r.action with
      | .move_delete => some (.fileDeleted r.depotFile r.text)
      | .move_add => some (.fileAdded r.depotFile r.text)
      | .add => some (.fileAdded r.depotFile r.text)
      | .delete => some (.fileDeleted r.depotFile r.text)
      | .edit => some (.fileEdited r.depotFile r.text r.text))

/-- A changelist-status oracle reproducing the fixture of
`test_parse_revision_spec_two_args`: `99`, `100` and `10284` are
submitted, `101` is pending, `102` is shelved. -/
def sampleStatus : String → Option ChangeStatus := fun s =>
  if s = "99" ∨ s = "100" ∨ s = "10284" then some .submitted
  else if s = "101" then some .pending
  else if s = "102" then some .shelved
  else none

/-- The filesystem-location metadata of the fixture of
`_test_diff_with_moved_files`: `fstat` maps the `move/delete` source
`//mydepot/test/README` to the destination
`//mydepot/test/README-new`. -/
def sampleMoved : String → Option String := fun s =>
  if s = "//mydepot/test/README" then some "//mydepot/test/README-new"
  else none

/-! # Theorems -/

/-- The segment count of a string is always its slash count plus one,
identifying "number of `/`-separated segments" with `count('/') + 1`. -/
theorem numSegments_eq_countSlashes_add_one (s : String) :
    numSegments s = countSlashes s + 1 := by
  suffices h : ∀ l : List Char,
      (splitSegsP l).2.length = (l.filter (fun c => c = '/')).length by
    simp [numSegments, countSlashes, h s.data, Nat.add_comm]
  intro l
  induction l with
  | nil => rfl
  | cons c cs ih =>
    by_cases hc : c = '/' <;> simp [splitSegsP, List.filter, hc, ih]

/-- The substitution loop is plain iteration of `stripOnce` (the spec's
"repeatedly remove the smallest leading run of one-or-more consecutive
path separators together with the path segment preceding it, exactly
strip_count times"). -/
theorem reSubStrip_eq_iterate (n : Nat) (l : List Char) :
    reSubStrip n l = stripOnce^[n] l := by
  induction n generalizing l with
  | zero => rfl
  | succ n ih => rw [reSubStrip, ih, Function.iterate_succ_apply]

theorem slashRunsB_eq_zero {l : List Char} (h : l.contains '/' = false)
    (b : Bool) : slashRunsB b l = 0 := by
  induction l generalizing b with
  | nil => rfl
  | cons c cs ih =>
    have h' : ¬ ('/' = c) ∧ cs.contains '/' = false := by
      simpa [List.contains_cons] using h
    have hc : ¬ c = '/' := fun hcc => h'.1 hcc.symm
    simp only [slashRunsB, if_neg hc]
    exact ih h'.2 false

theorem stripOnce_fixed {l : List Char} (h : l.contains '/' = false) :
    stripOnce l = l := by
  unfold stripOnce
  rw [h]
  simp

theorem slashRunsB_false_dropSeg (l : List Char) :
    slashRunsB false (dropSeg l) = slashRunsB false l := by
  induction l with
  | nil => rfl
  | cons c cs ih =>
    by_cases hc : c = '/'
    · rw [dropSeg, if_pos hc]
    · rw [dropSeg, if_neg hc, slashRunsB, if_neg hc, ih]

theorem slashRunsB_false_dropSlashes (l : List Char) :
    slashRunsB false (dropSlashes l) = slashRunsB true l := by
  induction l with
  | nil => rfl
  | cons c cs ih =>
    by_cases hc : c = '/'
    · rw [dropSlashes, if_pos hc, slashRunsB, if_pos hc, if_pos rfl, ih]
    · rw [dropSlashes, if_neg hc, slashRunsB, if_neg hc, slashRunsB,
        if_neg hc]

theorem dropSeg_of_contains {l : List Char} (h : l.contains '/' = true) :
    ∃ rest, dropSeg l = '/' :: rest := by
  induction l with
  | nil => simp [List.contains] at h
  | cons c cs ih =>
    by_cases hc : c = '/'
    · exact ⟨cs, by rw [dropSeg, if_pos hc, hc]⟩
    · have h' : cs.contains '/' = true := by
        have h2 := h
        simp only [List.contains_cons, Bool.or_eq_true, beq_iff_eq] at h2
        rcases h2 with h2 | h2
        · exact absurd h2.symm hc
        · exact h2
      obtain ⟨rest, hrest⟩ := ih h'
      exact ⟨rest, by rw [dropSeg, if_neg hc, hrest]⟩

/-- Stripping one leading segment removes exactly one maximal slash run
(when any remains). -/
theorem slashRuns_stripOnce {l : List Char} (h : l.contains '/' = true) :
    slashRuns (stripOnce l) + 1 = slashRuns l := by
  obtain ⟨rest, hrest⟩ := dropSeg_of_contains h
  have hstrip : stripOnce l = dropSlashes rest := by
    unfold stripOnce
    rw [h, if_pos rfl, hrest, dropSlashes, if_pos rfl]
  calc slashRuns (stripOnce l) + 1
      = slashRunsB false (dropSlashes rest) + 1 := by rw [hstrip]; rfl
    _ = slashRunsB true rest + 1 := by rw [slashRunsB_false_dropSlashes]
    _ = slashRunsB false ('/' :: rest) := by
        rw [slashRunsB, if_pos rfl, if_neg (by simp)]
    _ = slashRuns l := by rw [← hrest, slashRunsB_false_dropSeg]; rfl

/-- Iterating `stripOnce` `n` times removes exactly `n` leading segments,
truncated at the number of available separator runs. -/
theorem slashRuns_iterate (n : Nat) (l : List Char) :
    slashRuns (stripOnce^[n] l) = slashRuns l - n := by
  induction n generalizing l with
  | zero => rfl
  | succ n ih =>
    rw [Function.iterate_succ_apply]
    by_cases h : l.contains '/'
    · rw [ih, ← slashRuns_stripOnce h]
      omega
    · have h' : l.contains '/' = false := by simpa using h
      rw [stripOnce_fixed h', ih, slashRuns, slashRunsB_eq_zero h']
      omega

/-- The command and warning flags of an `apply_patch` trace are those
built by `patchCmd`, whatever the classification branch taken. -/
theorem apply_patch_cmd_eq (env : ApplyEnv) (pf bp bd : String)
    (p : Option PyVal) (r : Bool) :
    (apply_patch env pf bp bd p r).cmd = (patchCmd pf bp bd p r).1 ∧
    (apply_patch env pf bp bd p r).invalid_p_warning =
      (patchCmd pf bp bd p r).2.1 := by
  simp only [apply_patch]
  constructor <;> (repeat' split) <;> rfl

/-- **C1.** Strip-count derivation: for every non-empty generation base
path and every working subpath that starts with it, `_get_p_number`
returns the number of `/`-separated segments of the base path — the
claim's "segments plus one" read as `base_path.count('/') + 1`, which by
`numSegments_eq_countSlashes_add_one` equals the segment count and
matches the claim's own example `base "a/b" ↦ 2`; for every other input
pair (empty base path, or a working subpath not starting with the base
path) it returns the sentinel `-1`, which — third conjunct — makes
`apply_patch` pass no `-p` argument to the patch command. -/
theorem get_p_number_spec (base_path base_dir : String) :
    (base_path ≠ "" → pyStartsWith base_dir base_path = true →
      get_p_number base_path base_dir = (numSegments base_path : Int)) ∧
    (base_path = "" ∨ pyStartsWith base_dir base_path = false →
      get_p_number base_path base_dir = -1) ∧
    (get_p_number base_path base_dir = -1 →
      ∀ (env : ApplyEnv) (patch_file : String) (revert : Bool),
        (apply_patch env patch_file base_path base_dir none revert).cmd =
          ["patch"] ++ (if revert then ["-R"] else []) ++
            ["-i", patch_file]) := by
  refine ⟨?_, ?_, ?_⟩
  · intro h1 h2
    rw [get_p_number, if_pos ⟨h1, h2⟩, numSegments_eq_countSlashes_add_one]
    push_cast
    ring
  · intro h
    rw [get_p_number, if_neg]
    rintro ⟨hne, hpref⟩
    rcases h with h | h
    · exact hne h
    · rw [h] at hpref
      exact absurd hpref (by simp)
  · intro hneg env patch_file revert
    rw [(apply_patch_cmd_eq env patch_file base_path base_dir none revert).1]
    have hpn : patchPNum base_path base_dir none =
        (get_p_number base_path base_dir, false) := by
      simp [patchPNum, pyInt]
    rw [patchCmd, hpn, hneg]
    norm_num

/-- Witness for `get_p_number_spec`: base `"a/b"` with subpath `"a/b/c"`
gives `2` (the segment count of `"a/b"`), and a non-matching subpath
gives `-1`, with no `-p` argument built by `apply_patch`. -/
theorem get_p_number_spec_witness :
    get_p_number "a/b" "a/b/c" = (numSegments "a/b" : Int) ∧
    numSegments "a/b" = 2 ∧
    get_p_number "a/b" "x/y" = -1 ∧
    (apply_patch ⟨0, "", false, none, false⟩ "f.diff" "a/b" "x/y" none
        false).cmd = ["patch"] ++ (if false then ["-R"] else []) ++
      ["-i", "f.diff"] :=
  ⟨(get_p_number_spec "a/b" "a/b/c").1 (by decide) (by decide),
   by decide,
   (get_p_number_spec "a/b" "x/y").2.1 (Or.inr (by decide)),
   (get_p_number_spec "a/b" "x/y").2.2
     ((get_p_number_spec "a/b" "x/y").2.1 (Or.inr (by decide)))
     ⟨0, "", false, none, false⟩ "f.diff" false⟩

/-- **C2.** Prefix stripping: `_strip_p_num_slashes` returns the list
unchanged for strip count `0` and any non-positive strip count (first
conjunct); for every positive strip count it applies, per filename,
exactly `strip_count` iterations of "remove the smallest leading run of
one-or-more path separators together with the segment preceding it"
(second conjunct), each iteration consuming exactly one maximal run of
adjacent slashes — any run of adjacent slashes acting as a single
separator (third conjunct); concretely, `"x//y/z"` with strip count `2`
yields `"z"`, and `"a//b/c"` strips as `"a//"`, then `"b/"`, leaving
`"c"` after two strips (remaining conjuncts). -/
theorem strip_p_num_slashes_spec :
    (∀ (files : List String) (p_num : Int), p_num ≤ 0 →
      strip_p_num_slashes files p_num = files) ∧
    (∀ (files : List String) (p_num : Int), 0 < p_num →
      strip_p_num_slashes files p_num =
        files.map (fun f => String.mk (stripOnce^[p_num.toNat] f.data))) ∧
    (∀ (l : List Char) (n : Nat),
      slashRuns (stripOnce^[n] l) = slashRuns l - n) ∧
    strip_p_num_slashes ["x//y/z"] 2 = ["z"] ∧
    strip_p_num_slashes ["a//b/c"] 1 = ["b/c"] ∧
    strip_p_num_slashes ["a//b/c"] 2 = ["c"] := by
  refine ⟨?_, ?_, fun l n => slashRuns_iterate n l, by decide, by decide,
    by decide⟩
  · intro files p_num h
    rw [strip_p_num_slashes, if_neg (by omega)]
  · intro files p_num h
    rw [strip_p_num_slashes, if_pos h]
    simp [reSubStrip_eq_iterate]

/-- Witness for `strip_p_num_slashes_spec`: instantiates the
non-positive case at `-1` and the positive case at `2` on `["x//y/z"]`. -/
theorem strip_p_num_slashes_spec_witness :
    strip_p_num_slashes ["x//y/z"] (-1) = ["x//y/z"] ∧
    strip_p_num_slashes ["x//y/z"] 2 =
      ["x//y/z"].map
        (fun f => String.mk (stripOnce^[(2 : Int).toNat] f.data)) :=
  ⟨strip_p_num_slashes_spec.1 ["x//y/z"] (-1) (by decide),
   strip_p_num_slashes_spec.2.1 ["x//y/z"] 2 (by decide)⟩

/-- **C3.** Patch classification: whenever the patch mechanism exits
with a code other than `0` or the tolerable code `2` and its captured
output starts with the generic fatal preamble `'patch: **** '` while not
being the exact only-garbage message, `apply_patch` raises
`SCMError('Failed to execute command: %s\n%s' % (cmd, patch_output))` —
an error carrying the command and the full output. (The source checks
only the output; the exit-code hypotheses delimit the claimed cases.) -/
theorem apply_patch_fatal_classification (env : ApplyEnv)
    (patch_file base_path base_dir : String) (p : Option PyVal)
    (revert : Bool) (_hrc0 : env.rc ≠ 0) (_hrc2 : env.rc ≠ 2)
    (hpre : pyStartsWith env.patch_output "patch: **** " = true)
    (hgarb : env.patch_output ≠ only_garbage_in_patch) :
    (apply_patch env patch_file base_path base_dir p revert).outcome =
      .scmError (patchCmd patch_file base_path base_dir p revert).1
        env.patch_output := by
  have hne : env.patch_output ≠ "" := by
    intro h0
    rw [h0] at hpre
    exact absurd hpre (by decide)
  simp only [apply_patch]
  rw [if_pos ⟨hne, hpre, hgarb⟩]

/-- Witness for `apply_patch_fatal_classification`: exit code `1` with
output `"patch: **** malformed patch at line 1\n"` raises the error
carrying the built command and the output. -/
theorem apply_patch_fatal_classification_witness :
    (1 : Int) ≠ 0 ∧ (1 : Int) ≠ 2 ∧
    pyStartsWith "patch: **** malformed patch at line 1\n"
      "patch: **** " = true ∧
    (apply_patch ⟨1, "patch: **** malformed patch at line 1\n", false,
        none, false⟩ "f.diff" "" "" none false).outcome =
      .scmError (patchCmd "f.diff" "" "" none false).1
        "patch: **** malformed patch at line 1\n" :=
  ⟨by decide, by decide, by decide,
   apply_patch_fatal_classification
     ⟨1, "patch: **** malformed patch at line 1\n", false, none, false⟩
     "f.diff" "" "" none false (by decide) (by decide) (by decide)
     (by decide)⟩

/-- **C4.** The claim says an unreadable patch file during empty-file
detection yields an outcome with `applied = false`; the code instead
executes a bare `return`, producing Python `None` — no `PatchResult` at
all — although the method's own docstring promises
"Returns: rbtools.clients.base.patch.PatchResult". Evaluating the
embedded code on a run whose primary patch step succeeded (`rc = 0`,
benign output), with `supports_empty_files()` true and the re-read of
the patch file failing with `IOError`: the failure is logged
(`read_error_logged`), no exception is raised, and the call returns
`None` rather than any `PatchResult`. -/
theorem apply_patch_ioerror_bare_return :
    (apply_patch ⟨0, "patching file a\n", true, none, false⟩ "f.diff" ""
        "" none false).outcome = .noneReturn ∧
    (apply_patch ⟨0, "patching file a\n", true, none, false⟩ "f.diff" ""
        "" none false).read_error_logged = true ∧
    (apply_patch ⟨0, "patching file a\n", true, none, false⟩ "f.diff" ""
        "" none false).outcome ≠
      .patchResult false "patching file a\n" := by decide

/-- **C5, counterexample.** The explicitly supplied strip-count value
`0` does not override the derivation: with `base_path = "a/b"` and
`base_dir = "a/b/c"` the command carries `-p2` (the derived value), not
`-p0`, because `p or self._get_p_number(...)` discards the falsy `0`. -/
theorem explicit_p_zero_ignored :
    (apply_patch ⟨0, "", false, none, false⟩ "f.diff" "a/b" "a/b/c"
        (some (.int 0)) false).cmd = ["patch", "-p2", "-i", "f.diff"] ∧
    "-p0" ∉ (apply_patch ⟨0, "", false, none, false⟩ "f.diff" "a/b"
        "a/b/c" (some (.int 0)) false).cmd := by decide

/-- **C5, amended.** Every explicitly supplied strip-count value that is
truthy in Python (a non-zero integer or a non-empty string) overrides
the derivation from `base_path` and `base_dir`: the whole observable
behavior of `apply_patch` is then independent of `base_path` and
`base_dir`, so `_get_p_number`'s result is not used and the explicit
value alone determines the `-p` argument. (A falsy `p` — integer `0` or
empty string — is discarded by `p or ...` and the derivation is used.) -/
theorem truthy_p_overrides (env : ApplyEnv) (patch_file : String)
    (base_path base_dir base_path' base_dir' : String) (v : PyVal)
    (revert : Bool) (hv : v.truthy = true) :
    apply_patch env patch_file base_path base_dir (some v) revert =
      apply_patch env patch_file base_path' base_dir' (some v) revert := by
  have h : ∀ bp bd : String,
      patchPNum bp bd (some v) = patchPNum base_path' base_dir' (some v) := by
    intro bp bd
    simp only [patchPNum, hv, if_pos]
  simp only [apply_patch, patchCmd, h base_path base_dir]

/-- Witness for `truthy_p_overrides`: the non-empty string `"1"` makes
the trace independent of the base paths. -/
theorem truthy_p_overrides_witness :
    PyVal.truthy (.str "1") = true ∧
    apply_patch ⟨0, "", false, none, false⟩ "f.diff" "a/b" "a/b/c"
        (some (.str "1")) false =
      apply_patch ⟨0, "", false, none, false⟩ "f.diff" "" "zzz"
        (some (.str "1")) false :=
  ⟨by decide,
   truthy_p_overrides ⟨0, "", false, none, false⟩ "f.diff" "a/b" "a/b/c"
     "" "zzz" (.str "1") false (by decide)⟩

/-- **C10, counterexample.** The empty string cannot be parsed as an
integer (`int('')` raises `ValueError`), yet supplying `p = ''` does not
lead to the claimed caught-`ValueError` path: `''` is falsy, so
`p or ...` falls back to the derivation, no warning is logged, and the
command carries the derived `-p2` instead of the claimed `-p0`. -/
theorem empty_string_p_falls_back :
    pyIntOfStr "" = none ∧
    (apply_patch ⟨0, "", false, none, false⟩ "f.diff" "a/b" "a/b/c"
        (some (.str "")) false).cmd = ["patch", "-p2", "-i", "f.diff"] ∧
    (apply_patch ⟨0, "", false, none, false⟩ "f.diff" "a/b" "a/b/c"
        (some (.str "")) false).invalid_p_warning = false := by decide

/-- **C10, amended.** For every `apply_patch` call whose supplied `p`
value is a *non-empty* string that cannot be parsed as an integer, no
`ValueError` propagates (the embedded function is total on this branch):
the parse failure is caught, the strip count is treated as `0`, the
invalid-value warning is logged, and the external patch command is
invoked with `-p0`. (An empty string is falsy and falls back to the
derivation instead, as `empty_string_p_falls_back` shows.) -/
theorem unparseable_p_defaults_zero (env : ApplyEnv)
    (patch_file base_path base_dir : String) (s : String) (revert : Bool)
    (hne : s ≠ "") (hparse : pyIntOfStr s = none) :
    (apply_patch env patch_file base_path base_dir (some (.str s))
        revert).invalid_p_warning = true ∧
    (apply_patch env patch_file base_path base_dir (some (.str s))
        revert).cmd =
      ["patch"] ++ (if revert then ["-R"] else []) ++
        ["-p0", "-i", patch_file] := by
  have htr : PyVal.truthy (.str s) = true := by
    simp [PyVal.truthy, hne]
  have hpn : patchPNum base_path base_dir (some (.str s)) = (0, true) := by
    simp only [patchPNum, htr, if_pos, pyInt, hparse]
  have hcmd : patchCmd patch_file base_path base_dir (some (.str s)) revert =
      (["patch"] ++ (if revert then ["-R"] else []) ++
        ["-p0", "-i", patch_file], true, false) := by
    rw [patchCmd, hpn]
    norm_num
    decide
  exact ⟨by
    rw [(apply_patch_cmd_eq env patch_file base_path base_dir
      (some (.str s)) revert).2, hcmd], by
    rw [(apply_patch_cmd_eq env patch_file base_path base_dir
      (some (.str s)) revert).1, hcmd]⟩

/-- Witness for `unparseable_p_defaults_zero`: `p = "abc"` logs the
warning and invokes the command with `-p0`. -/
theorem unparseable_p_defaults_zero_witness :
    ("abc" : String) ≠ "" ∧ pyIntOfStr "abc" = none ∧
    (apply_patch ⟨0, "", false, none, false⟩ "f.diff" "a/b" "a/b/c"
        (some (.str "abc")) false).invalid_p_warning = true ∧
    (apply_patch ⟨0, "", false, none, false⟩ "f.diff" "a/b" "a/b/c"
        (some (.str "abc")) false).cmd =
      ["patch"] ++ (if false then ["-R"] else []) ++
        ["-p0", "-i", "f.diff"] :=
  ⟨by decide, by decide,
   (unparseable_p_defaults_zero ⟨0, "", false, none, false⟩ "f.diff" "a/b"
     "a/b/c" "abc" false (by decide) (by decide)).1,
   (unparseable_p_defaults_zero ⟨0, "", false, none, false⟩ "f.diff" "a/b"
     "a/b/c" "abc" false (by decide) (by decide)).2⟩

/-- **C6.** Two-token revision resolution (spec-modelled, since
`rbtools/clients/perforce.py` is outside the excerpt): when both tokens
resolve to submitted changelists and the first is numerically ≤ the
second, resolution returns `{base: token1, tip: token2}`; an ordering
violation, or either token resolving to a pending or shelved changelist,
raises `InvalidRevisionSpecError`. -/
theorem parse_two_revisions_spec (st : String → Option ChangeStatus)
    (r1 r2 : String) :
    (∀ n1 n2, st r1 = some .submitted → st r2 = some .submitted →
      changelistNum r1 = some n1 → changelistNum r2 = some n2 →
      ((n1 ≤ n2 →
        parseTwoRevisions st r1 r2 = .ok { base := r1, tip := r2 }) ∧
       (n2 < n1 →
        parseTwoRevisions st r1 r2 = .error .invalidRevisionSpec))) ∧
    (∀ s, st r1 = some s → s ≠ .submitted →
      parseTwoRevisions st r1 r2 = .error .invalidRevisionSpec) ∧
    (∀ s, st r2 = some s → s ≠ .submitted →
      parseTwoRevisions st r1 r2 = .error .invalidRevisionSpec) := by
  refine ⟨?_, ?_, ?_⟩
  · intro n1 n2 h1 h2 hn1 hn2
    constructor
    · intro hle
      simp only [parseTwoRevisions, h1, h2, hn1, hn2, if_pos hle]
    · intro hlt
      simp only [parseTwoRevisions, h1, h2, hn1, hn2,
        if_neg (by omega : ¬ n1 ≤ n2)]
  · intro s h1 hs
    cases s with
    | submitted => exact absurd rfl hs
    | pending => simp only [parseTwoRevisions, h1]
    | shelved => simp only [parseTwoRevisions, h1]
  · intro s h2 hs
    rcases hst1 : st r1 with _ | s1
    · simp only [parseTwoRevisions, hst1]
    · cases s1 with
      | submitted =>
        cases s with
        | submitted => exact absurd rfl hs
        | pending => simp only [parseTwoRevisions, hst1, h2]
        | shelved => simp only [parseTwoRevisions, hst1, h2]
      | pending => simp only [parseTwoRevisions, hst1]
      | shelved => simp only [parseTwoRevisions, hst1]

/-- Witness for `parse_two_revisions_spec`, on the status oracle of the
test fixture: `['99', '100']` (both submitted, in order) resolves to
`{base: '99', tip: '100'}`, and `['99', '101']` (second pending) raises
`InvalidRevisionSpecError`. -/
theorem parse_two_revisions_spec_witness :
    parseTwoRevisions sampleStatus "99" "100" =
      .ok { base := "99", tip := "100" } ∧
    parseTwoRevisions sampleStatus "99" "101" =
      .error .invalidRevisionSpec ∧
    parseTwoRevisions sampleStatus "102" "10284" =
      .error .invalidRevisionSpec :=
  ⟨((parse_two_revisions_spec sampleStatus "99" "100").1 99 100 (by decide)
      (by decide) (by decide) (by decide)).1 (by decide),
   (parse_two_revisions_spec sampleStatus "99" "101").2.2 .pending
     (by decide) (by decide),
   (parse_two_revisions_spec sampleStatus "102" "10284").2.1 .shelved
     (by decide) (by decide)⟩

/-- **C7.** Move/rename synthesis (spec-modelled, since
`rbtools/clients/perforce.py` is outside the excerpt): for a changeset
holding a `move_delete`/`move_add` record pair whose source and
destination match via the filesystem-location metadata, synthesis with
the move-detection capability enabled yields one combined fragment
carrying the source and destination (rendering as the explicit
`Moved from:`/`Moved to:` annotations), while the same input with the
capability disabled yields two independent fragments — a deletion of the
old path with the old content and an addition of the new path with the
full new content — and no move annotation. -/
theorem moved_files_synthesis (movedFile : String → Option String)
    (rdel radd : FileRecord) (h1 : rdel.action = .move_delete)
    (h2 : radd.action = .move_add)
    (h3 : movedFile rdel.depotFile = some radd.depotFile) :
    synthesizeChangeDiffs true movedFile [rdel, radd] =
      [.movedFile rdel.depotFile radd.depotFile rdel.text radd.text] ∧
    synthesizeChangeDiffs false movedFile [rdel, radd] =
      [.fileDeleted rdel.depotFile rdel.text,
       .fileAdded radd.depotFile radd.text] := by
  constructor
  · simp [synthesizeChangeDiffs, List.filterMap_cons, List.find?, List.any,
      h1, h2, h3]
  · simp [synthesizeChangeDiffs, List.filterMap_cons, h1, h2]

/-- Witness for `moved_files_synthesis`, on the README pair of the test
fixture of `_test_diff_with_moved_files`. -/
theorem moved_files_synthesis_witness :
    synthesizeChangeDiffs true sampleMoved
      [⟨"//mydepot/test/README", "This is a test.\n", .move_delete⟩,
       ⟨"//mydepot/test/README-new", "This is a mess.\n", .move_add⟩] =
      [.movedFile "//mydepot/test/README" "//mydepot/test/README-new"
        "This is a test.\n" "This is a mess.\n"] ∧
    synthesizeChangeDiffs false sampleMoved
      [⟨"//mydepot/test/README", "This is a test.\n", .move_delete⟩,
       ⟨"//mydepot/test/README-new", "This is a mess.\n", .move_add⟩] =
      [.fileDeleted "//mydepot/test/README" "This is a test.\n",
       .fileAdded "//mydepot/test/README-new" "This is a mess.\n"] :=
  moved_files_synthesis sampleMoved
    ⟨"//mydepot/test/README", "This is a test.\n", .move_delete⟩
    ⟨"//mydepot/test/README-new", "This is a mess.\n", .move_add⟩
    rfl rfl (by decide)

/-- **C8.** `setup()` is idempotent: on a client whose dependency check
has already succeeded (`is_setup = True`), calling `setup()` again
returns immediately — the state is unchanged, `check_dependencies` is
not invoked, and nothing is raised — whatever `check_dependencies`
would do on this call. -/
theorem setup_idempotent (depsOk : Bool) (s : ClientState)
    (h : s.is_setup = true) :
    setup depsOk s = { state := s, raised := false, checked := false } := by
  unfold setup
  rw [h]
  simp

/-- Witness for `setup_idempotent`: a client already set up
(`is_setup = true`, `_has_deps = True`) is untouched by a second
`setup()`. -/
theorem setup_idempotent_witness :
    setup true { is_setup := true, has_deps := some true } =
      { state := { is_setup := true, has_deps := some true },
        raised := false, checked := false } :=
  setup_idempotent true { is_setup := true, has_deps := some true } rfl

/-- **C9.** Dependency-failure caching: when `check_dependencies` raises
`SCMClientDependencyError` out of `setup()` on a fresh client, the
failure is cached (`_has_deps = False`), and every subsequent
`has_dependencies()` call returns `False` — with unchanged state and
without re-invoking `check_dependencies`, regardless of what a re-probe
would report or of `expect_checked`. Since the state is returned
unchanged, this covers all subsequent calls. -/
theorem dependency_failure_cached (s : ClientState)
    (hsetup : s.is_setup = false) (_hdeps : s.has_deps = none) :
    (setup false s).raised = true ∧
    (setup false s).state.has_deps = some false ∧
    (∀ depsOk expect_checked,
      has_dependencies depsOk expect_checked (setup false s).state =
        { state := (setup false s).state, result := some false,
          checked := false, warned := false }) := by
  have hst : setup false s =
      { state := { s with has_deps := some false }, raised := true,
        checked := true } := by
    unfold setup
    rw [hsetup]
    simp
  refine ⟨by rw [hst], by rw [hst], ?_⟩
  intro depsOk expect_checked
  rw [hst]
  simp only [has_dependencies]

/-- Witness for `dependency_failure_cached`: from the freshly
initialized state, a failing `setup()` caches `False`, and a later
`has_dependencies(expect_checked=True)` — even with the dependencies now
available (`depsOk = true`) — returns `False` without another check. -/
theorem dependency_failure_cached_witness :
    (setup false initialClientState).raised = true ∧
    (setup false initialClientState).state.has_deps = some false ∧
    has_dependencies true true (setup false initialClientState).state =
      { state := (setup false initialClientState).state,
        result := some false, checked := false, warned := false } :=
  ⟨(dependency_failure_cached initialClientState rfl rfl).1,
   (dependency_failure_cached initialClientState rfl rfl).2.1,
   (dependency_failure_cached initialClientState rfl rfl).2.2 true true⟩

end RBTools
